import Mathlib

/-!
Shallow embedding of the stock-api repository (FastAPI + MongoDB backend):
the authentication middleware of src/auth.py and the route handlers of
src/main.py, together with theorems settling the frozen claims about them.

Modelling conventions:
- Python dict-backed Mongo collections become Lean lists of records;
  `find_one` is `List.find?`, `update_one` updates the first match,
  `insert_one` appends.
- Python floats in price bars become rationals; no claim exercises
  floating-point rounding.
- Fallible handler bodies return `Except (Nat × String)` pairs carrying the
  HTTP status code and detail of the raised `HTTPException`, alongside the
  resulting store state.
- The remote identity service and the market-data provider are oracles
  passed in as explicit arguments describing the outcome of the one call
  the handler makes.
-/

namespace StockApi

/-- A single apostrophe character, used to build message strings that quote
words the way the Python source does. -/
def sq : String := String.mk [Char.ofNat 39]

/-- Whether the first list is a leading segment of the second
(character-by-character equality). -/
def startsWithChars : List Char → List Char → Bool
  | [], _ => true
  | _ :: _, [] => false
  | a :: as, b :: bs => a == b && startsWithChars as bs

/-- Python substring membership `needle in hay` on strings: true when
`needle` occurs contiguously inside `hay` (the empty needle always does). -/
def strContains (hay needle : String) : Bool :=
  (List.range (hay.data.length + 1)).any fun i =>
    startsWithChars needle.data (hay.data.drop i)

/-- Splitting a list of characters at commas, keeping empty segments,
mirroring how a comma-separated configuration string encodes a set. -/
def splitCommaChars : List Char → List (List Char)
  | [] => [[]]
  | c :: cs =>
    let rest := splitCommaChars cs
    if c == ',' then [] :: rest
    else match rest with
      | [] => [[c]]
      | seg :: segs => (c :: seg) :: segs

/-- Modelled from the spec: the configured set of admin keys, read off a
comma-separated configuration string. The source keeps `ADMIN_API_KEYS` as a
raw string and never parses it; this definition exists only to state the
claim that the bypass tests membership in a key set. -/
def adminKeySet (s : String) : List String :=
  (splitCommaChars s.data).map fun cs => String.mk cs

/-- The identity payload attached to a request: the `id` field when present
(used as the watchlist ownership key) and the rest of the JSON payload kept
opaque. -/
structure UserData where
  id : Option Int
  raw : String
deriving DecidableEq, Repr

/-- Environment-sourced gate configuration: the `ADMIN_API_KEYS` string and
the `ADMIN_DATA` admin identity payload of src/auth.py. -/
structure GateConfig where
  adminApiKeys : String
  adminData : UserData
deriving DecidableEq, Repr

/-- The parts of an inbound request the middleware reads: the URL path and
the `x-api-key` and `Authorization` headers (absent headers are `none`). -/
structure HttpRequest where
  path : String
  xApiKey : Option String
  authorization : Option String
deriving DecidableEq, Repr

/-- Outcome of the single call the middleware makes to the identity
service: a timeout, a transport-level failure, an HTTP response carrying a
status code plus the parsed validity flag and user payload, or a status-200
response whose body fails to parse. -/
inductive AuthServiceBehavior where
  | timeout
  | transportError (msg : String)
  | httpResponse (statusCode : Nat) (valid : Bool) (user : Option UserData)
  | jsonParseFailure (msg : String)
deriving DecidableEq, Repr

/-- Result of the middleware: forward to the route handler with the given
identity attached to request state (`none` when nothing is attached), or
reject with an HTTP status code and detail message. -/
inductive GateOutcome where
  | forwarded (user : Option UserData)
  | rejected (statusCode : Nat) (detail : String)
deriving DecidableEq, Repr

/-- The paths the middleware skips entirely (src/auth.py line 21). -/
def authSkipPaths : List String := ["/docs", "/openapi.json", "/redoc"]

/-- The admin bypass condition of src/auth.py line 27:
`if api_key and api_key in ADMIN_API_KEYS`. The header value must be
present, non-empty (Python truthiness), and — because `ADMIN_API_KEYS` is a
string — a substring of the configured string. -/
def adminBypass (cfg : GateConfig) (req : HttpRequest) : Bool :=
  match req.xApiKey with
  | none => false
  | some k => (k != "") && strContains cfg.adminApiKeys k

/-- The identity-service branch of the middleware (src/auth.py lines 39-80):
classify the outcome of the remote call. A non-200 status or a false
validity flag rejects 401; timeout and transport errors reject 503; a body
parse failure is caught by the blanket handler and rejects 500; otherwise
the `user` field of the response body is attached. -/
def authServiceCheck : AuthServiceBehavior → GateOutcome
  | .timeout => .rejected 503 "Authentication service timeout"
  | .transportError msg => .rejected 503 ("Authentication service error: " ++ msg)
  | .jsonParseFailure msg => .rejected 500 ("Internal server error: " ++ msg)
  | .httpResponse statusCode valid user =>
    if statusCode != 200 then .rejected 401 "Invalid or expired token"
    else if valid == false then .rejected 401 "Token validation failed"
    else .forwarded user

/-- The bearer-credential path of the middleware (src/auth.py lines 31-37):
a missing or empty `Authorization` header rejects 401 with no remote call;
otherwise the identity service is consulted. -/
def bearerBranch (req : HttpRequest) (svc : AuthServiceBehavior) : GateOutcome :=
  if req.authorization.getD "" == "" then
    .rejected 401 "Authorization header missing"
  else authServiceCheck svc

/-- `validate_token_middleware` of src/auth.py: skip the documentation
paths, try the admin bypass, then fall through to the bearer path. -/
def validate_token_middleware (cfg : GateConfig) (req : HttpRequest)
    (svc : AuthServiceBehavior) : GateOutcome :=
  if authSkipPaths.contains req.path then .forwarded none
  else if adminBypass cfg req then .forwarded (some cfg.adminData)
  else bearerBranch req svc

/-- Whether a given request causes the middleware to issue the outbound
call to the identity service: only on a non-skipped path, with no admin
bypass, and with a non-empty `Authorization` header. -/
def usesAuthService (cfg : GateConfig) (req : HttpRequest) : Bool :=
  !(authSkipPaths.contains req.path) && !(adminBypass cfg req)
    && (req.authorization.getD "" != "")

/-! ### Stock data model and the sync write path (src/main.py lines 67-91) -/

/-- A stored price-bar document, keyed by `(symbol, date)`; `StockRecord`
of src/models.py. Prices are modelled as rationals. -/
structure StockRecord where
  symbol : String
  date : String
  «open» : ℚ
  high : ℚ
  low : ℚ
  close : ℚ
  volume : Int
deriving DecidableEq, Repr

/-- One row of the data frame returned by the market-data provider: the
formatted date index plus the OHLCV columns. -/
structure Bar where
  date : String
  «open» : ℚ
  high : ℚ
  low : ℚ
  close : ℚ
  volume : Int
deriving DecidableEq, Repr

/-- The request body of POST /stocks/sync. -/
structure StockSyncRequest where
  symbol : String
  period : String
deriving DecidableEq, Repr

/-- The document built for one provider row (src/main.py lines 75-83). -/
def docOfBar (symbol : String) (b : Bar) : StockRecord :=
  ⟨symbol, b.date, b.«open», b.high, b.low, b.close, b.volume⟩

/-- Mongo `update_one({"symbol", "date"}, {"$set": document}, upsert=True)`:
replace the first document with the same natural key, or append when no
document matches. -/
def upsertBar : List StockRecord → StockRecord → List StockRecord
  | [], r => [r]
  | d :: ds, r =>
    if d.symbol == r.symbol && d.date == r.date then r :: ds
    else d :: upsertBar ds r

/-- A raised Python exception as seen by an `except` clause: either a
FastAPI `HTTPException` (which subclasses `Exception`) or a plain
exception carrying a message. -/
inductive PyExc where
  | httpExc (statusCode : Nat) (detail : String)
  | exc (msg : String)
deriving DecidableEq, Repr

/-- Python `str(e)`: starlette renders an `HTTPException` as
`"{status_code}: {detail}"`; a plain exception renders its message. -/
def excMessage : PyExc → String
  | .httpExc statusCode detail => toString statusCode ++ ": " ++ detail
  | .exc msg => msg

/-- The response of the sync handler: the success body
`{"symbol": ..., "status": "done"}` or a raised `HTTPException`. -/
inductive SyncResult where
  | done (symbol : String)
  | httpError (statusCode : Nat) (detail : String)
deriving DecidableEq, Repr

/-- The upsert loop of the sync handler. `storeErr = some (k, msg)` means
the store raises `msg` on the k-th (zero-based) `update_one` call; rows
upserted before the failure stay committed. -/
def syncUpserts (symbol : String) :
    List Bar → Option (Nat × String) → List StockRecord →
    Option PyExc × List StockRecord
  | [], _, db => (none, db)
  | _ :: _, some (0, msg), db => (some (.exc msg), db)
  | b :: rest, some (k + 1, msg), db =>
    syncUpserts symbol rest (some (k, msg)) (upsertBar db (docOfBar symbol b))
  | b :: rest, none, db =>
    syncUpserts symbol rest none (upsertBar db (docOfBar symbol b))

/-- `sync_stock` of src/main.py. The whole body sits in one `try` whose
`except Exception as e` re-raises everything as `HTTPException(500, str(e))`.
Because FastAPI `HTTPException` subclasses `Exception`, the
`HTTPException(404, "Stock data not found")` raised for an empty data frame
is itself captured by that blanket clause, so the empty case leaves the
handler as a 500 whose detail is `str` of the 404 exception.
`provider` is the outcome of the `yf.download` call. -/
def sync_stock (req : StockSyncRequest) (provider : Except String (List Bar))
    (storeErr : Option (Nat × String)) (db : List StockRecord) :
    SyncResult × List StockRecord :=
  match provider with
  | .error msg => (.httpError 500 (excMessage (.exc msg)), db)
  | .ok bars =>
    if bars.isEmpty then
      (.httpError 500 (excMessage (.httpExc 404 "Stock data not found")), db)
    else
      match syncUpserts req.symbol bars storeErr db with
      | (some e, db2) => (.httpError 500 (excMessage e), db2)
      | (none, db2) => (.done req.symbol, db2)

/-! ### The stock list read path (src/main.py lines 94-170) -/

/-- The sort-field allow-list of src/main.py line 119. -/
def valid_sort_fields : List String :=
  ["date", "symbol", "open", "high", "low", "close", "volume"]

/-- A Mongo sort key: the stored field value being ordered, either a string
or a numeric value. -/
inductive SortKey where
  | str (s : String)
  | num (q : ℚ)
deriving DecidableEq, Repr

/-- Lexicographic byte order on strings via character codepoints. -/
def charListLe : List Char → List Char → Bool
  | [], _ => true
  | _ :: _, [] => false
  | a :: as, b :: bs => if a == b then charListLe as bs else Nat.blt a.toNat b.toNat

/-- Non-strict order on sort keys; numbers order before strings, matching
the Mongo BSON comparison order (moot here, since every sortable column is
homogeneous). -/
def SortKey.le : SortKey → SortKey → Bool
  | .num a, .num b => !(Rat.blt b a)
  | .str a, .str b => charListLe a.data b.data
  | .num _, .str _ => true
  | .str _, .num _ => false

/-- The stored value of the requested sort column. Only called with a field
from `valid_sort_fields`; the fallthrough arm is the volume column. -/
def sortFieldKey (field : String) (r : StockRecord) : SortKey :=
  if field == "date" then .str r.date
  else if field == "symbol" then .str r.symbol
  else if field == "open" then .num r.«open»
  else if field == "high" then .num r.high
  else if field == "low" then .num r.low
  else if field == "close" then .num r.close
  else .num (r.volume : ℚ)

/-- Insert into a list sorted by `le`, keeping the new element before the
first element it is `le`-below. -/
def insertSorted (le : α → α → Bool) (x : α) : List α → List α
  | [] => [x]
  | y :: ys => if le x y then x :: y :: ys else y :: insertSorted le x ys

/-- Deterministic comparison sort used to model the Mongo `sort` stage. -/
def sortWith (le : α → α → Bool) : List α → List α
  | [] => []
  | x :: xs => insertSorted le x (sortWith le xs)

/-- The Mongo `sort(sort_by, sort_direction)` stage: ascending by the
column key, or its reverse for `desc` (src/main.py line 134). -/
def sortStocks (sort_by sort_order : String) (rows : List StockRecord) :
    List StockRecord :=
  if sort_order == "asc" then
    sortWith (fun a b => SortKey.le (sortFieldKey sort_by a) (sortFieldKey sort_by b)) rows
  else
    sortWith (fun a b => SortKey.le (sortFieldKey sort_by b) (sortFieldKey sort_by a)) rows

/-- The filter query of src/main.py lines 114-116: when a non-empty symbol
parameter is given, keep only documents whose symbol equals its uppercase
form. -/
def filterStocks (symbol : Option String) (db : List StockRecord) :
    List StockRecord :=
  let s := symbol.getD ""
  if s == "" then db else db.filter fun r => r.symbol == s.toUpper

/-- The query phase of the list handler after validation (src/main.py lines
136-154): total matching count, total pages (ceiling division, zero when
empty), and the one requested page of the sorted rows. `page ≥ 1` and
`page_size ≥ 1` are enforced upstream by the FastAPI `Query` bounds. -/
def stocksPage (symbol : Option String) (page page_size : Nat)
    (sort_by sort_order : String) (db : List StockRecord) :
    Nat × Nat × List StockRecord :=
  let filtered := filterStocks symbol db
  let total := filtered.length
  let total_pages := if total > 0 then (total + page_size - 1) / page_size else 0
  let skip := (page - 1) * page_size
  (total, total_pages, ((sortStocks sort_by sort_order filtered).drop skip).take page_size)

/-! ### Pydantic response-model validation for StockListResponse
(src/models.py lines 53-70) -/

/-- A Python runtime value handed to pydantic field validation. -/
inductive PyValue where
  | vStr (s : String)
  | vNum (q : ℚ)
  | vInt (n : Int)
  | vList (items : List PyValue)
  | vDict (fields : List (String × PyValue))

/-- The dict form of one stock record, as the handler would serialize it. -/
def StockRecord.toPy (r : StockRecord) : PyValue :=
  .vDict [("symbol", .vStr r.symbol), ("date", .vStr r.date),
          ("open", .vNum r.«open»), ("high", .vNum r.high),
          ("low", .vNum r.low), ("close", .vNum r.close),
          ("volume", .vInt r.volume)]

/-- `StockHistoryRecord` of src/models.py: one record of parallel lists. -/
structure StockHistoryRecord where
  «open» : List ℚ
  close : List ℚ
  high : List ℚ
  low : List ℚ
  volume : List ℚ
  date : List String
  symbol : String
deriving DecidableEq, Repr

/-- `StockListResponse` of src/models.py: its `data` field is declared with
the submodel type `StockHistoryRecord`, not a list of records. -/
structure StockListResponse where
  data : StockHistoryRecord
  total : Nat
  page : Nat
  page_size : Nat
  total_pages : Nat
deriving DecidableEq, Repr

/-- Pydantic error message for a non-dict value supplied where a submodel
is declared. -/
def pyDictError : String := "value is not a valid dict (type=type_error.dict)"

/-- Field lookup in a Python dict value. -/
def getField (fields : List (String × PyValue)) (k : String) : Option PyValue :=
  (fields.find? fun p => p.1 == k).map fun p => p.2

/-- Coerce a Python value to a list of floats (ints coerce to floats). -/
def asFloatList : PyValue → Option (List ℚ)
  | .vList items => items.mapM fun x =>
      match x with
      | .vNum q => some q
      | .vInt n => some (n : ℚ)
      | _ => none
  | _ => none

/-- Coerce a Python value to a list of strings. -/
def asStrList : PyValue → Option (List String)
  | .vList items => items.mapM fun x =>
      match x with
      | .vStr s => some s
      | _ => none
  | _ => none

/-- Coerce a Python value to a string. -/
def asStr : PyValue → Option String
  | .vStr s => some s
  | _ => none

/-- Pydantic validation of a value against the declared type
`StockHistoryRecord`: only a dict (or model instance, which pydantic reads
as its dict) with the declared list fields is accepted; any other shape —
in particular a plain Python list — is rejected. -/
def parseStockHistoryRecord (v : PyValue) : Except String StockHistoryRecord :=
  match v with
  | .vDict fields =>
    match (do
      let o ← getField fields "open" >>= asFloatList
      let c ← getField fields "close" >>= asFloatList
      let h ← getField fields "high" >>= asFloatList
      let l ← getField fields "low" >>= asFloatList
      let vo ← getField fields "volume" >>= asFloatList
      let d ← getField fields "date" >>= asStrList
      let s ← getField fields "symbol" >>= asStr
      pure (StockHistoryRecord.mk o c h l vo d s) : Option StockHistoryRecord) with
    | some h => .ok h
    | none => .error "field required (type=value_error.missing)"
  | _ => .error pyDictError

/-- Constructing `StockListResponse(data=..., total=..., ...)`: pydantic
validates the supplied `data` value against the declared
`StockHistoryRecord` field type. -/
def mkStockListResponse (dataValue : PyValue)
    (total page page_size total_pages : Nat) :
    Except String StockListResponse :=
  match parseStockHistoryRecord dataValue with
  | .ok h => .ok ⟨h, total, page, page_size, total_pages⟩
  | .error e => .error e

/-- The response of the list handler: a validated response model or a
raised `HTTPException`. -/
inductive StocksResult where
  | ok (resp : StockListResponse)
  | httpError (statusCode : Nat) (detail : String)
deriving DecidableEq, Repr

/-- Detail of the invalid-sort-field rejection (src/main.py line 123). -/
def sortByErrorDetail : String :=
  "Invalid sort_by field. Must be one of: " ++ String.intercalate ", " valid_sort_fields

/-- Detail of the invalid-sort-order rejection (src/main.py line 130). -/
def sortOrderErrorDetail : String :=
  "Invalid sort_order. Must be " ++ sq ++ "asc" ++ sq ++ " or " ++ sq ++ "desc" ++ sq

/-- `get_stocks` of src/main.py: validate the sort parameters, run the
count and page queries, then construct `StockListResponse` with the page
rows as the `data` value; a pydantic validation failure there is caught by
the blanket `except Exception` clause and re-raised as
`HTTPException(500, "Error fetching stocks: " + str(e))`, while the
explicitly raised 400s pass through the `except HTTPException` clause
untouched. -/
def get_stocks (symbol : Option String) (page page_size : Nat)
    (sort_by sort_order : String) (db : List StockRecord) : StocksResult :=
  if valid_sort_fields.contains sort_by = false then
    .httpError 400 sortByErrorDetail
  else if (["asc", "desc"].contains sort_order) = false then
    .httpError 400 sortOrderErrorDetail
  else
    let tpr := stocksPage symbol page page_size sort_by sort_order db
    match mkStockListResponse (.vList (tpr.2.2.map StockRecord.toPy))
        tpr.1 page page_size tpr.2.1 with
    | .ok resp => .ok resp
    | .error e => .httpError 500 ("Error fetching stocks: " ++ e)

/-- Whether the list handler reaches the database at all: the count and
page queries run exactly when both sort parameters pass validation. -/
def stocksQueryExecuted (sort_by sort_order : String) : Bool :=
  valid_sort_fields.contains sort_by && (["asc", "desc"].contains sort_order)

/-! ### Watchlist handlers (src/main.py lines 173-279) -/

/-- A stored watchlist document; `oid` is the Mongo ObjectId rendered as
its 24-character hex string. -/
structure WatchlistDoc where
  oid : String
  name : String
  symbols : List String
  user_id : Int
deriving DecidableEq, Repr

/-- The response model `Watchlist` of src/main.py. -/
structure Watchlist where
  id : String
  name : String
  symbols : List String
  user_id : Int
deriving DecidableEq, Repr

/-- The request body of POST /watchlist. -/
structure WatchlistCreate where
  name : String
  symbols : List String
deriving DecidableEq, Repr

/-- The request body of PATCH /watchlist/{id}; omitted fields are `none`. -/
structure WatchListUpdate where
  name : Option String
  symbols : Option (List String)
deriving DecidableEq, Repr

/-- Hex-digit test for ObjectId validation. -/
def isHexChar (c : Char) : Bool :=
  c.isDigit || (Nat.ble 97 c.toNat && Nat.ble c.toNat 102)
    || (Nat.ble 65 c.toNat && Nat.ble c.toNat 70)

/-- Whether `ObjectId(s)` succeeds: a 24-character hex string. -/
def isValidObjectId (s : String) : Bool :=
  s.data.length == 24 && s.data.all isHexChar

/-- Update the first element matching `p` by `f`, as Mongo `update_one`
updates the first matching document. -/
def updateFirst (p : α → Bool) (f : α → α) : List α → List α
  | [] => []
  | x :: xs => if p x then f x :: xs else x :: updateFirst p f xs

/-- Detail of the collapsed not-found / not-owned rejection of the update
handler (src/main.py line 224). -/
def watchlistNotFoundDetail : String :=
  "Watchlist not found or you don" ++ sq ++ "t have permission to edit it"

/-- `create_watchlist` of src/main.py: require an attached identity with an
`id` field, reject 400 when the caller already owns a watchlist with the
requested name, otherwise insert and return the new watchlist with its
generated identifier (`newId` stands for the ObjectId Mongo generates). -/
def create_watchlist (user : Option UserData) (w : WatchlistCreate)
    (db : List WatchlistDoc) (newId : String) :
    Except (Nat × String) Watchlist × List WatchlistDoc :=
  match user with
  | none => (.error (401, "Authentication required"), db)
  | some u =>
    match u.id with
    | none => (.error (401, "Authentication required"), db)
    | some user_id =>
      if (db.find? fun d => d.name == w.name && d.user_id == user_id).isSome then
        (.error (400, "Watchlist with this name already exists"), db)
      else
        (.ok ⟨newId, w.name, w.symbols, user_id⟩,
         db ++ [⟨newId, w.name, w.symbols, user_id⟩])

/-- `update_watchlist` of src/main.py: require identity, parse the id,
look the target up by `(_id, user_id)` (collapsing absent and not-owned
into one 404), reject a rename that collides with another of the caller's
watchlists with 409, no-op on an empty patch, otherwise `$set` exactly the
supplied fields on the first document with that `_id` and return the
re-fetched result. -/
def update_watchlist (user : Option UserData) (watchlist_id : String)
    (patch : WatchListUpdate) (db : List WatchlistDoc) :
    Except (Nat × String) Watchlist × List WatchlistDoc :=
  match user with
  | none => (.error (401, "Authentication required"), db)
  | some u =>
    match u.id with
    | none => (.error (401, "Authentication required"), db)
    | some user_id =>
      if isValidObjectId watchlist_id = false then
        (.error (400, "Invalid watchlist ID format"), db)
      else
        match db.find? fun d => d.oid == watchlist_id && d.user_id == user_id with
        | none => (.error (404, watchlistNotFoundDetail), db)
        | some existing =>
          let nameConflict : Bool :=
            match patch.name with
            | none => false
            | some n =>
              n != existing.name &&
                (db.find? fun d => d.name == n && d.user_id == user_id).isSome
          if nameConflict then
            (.error (409, "Watchlist with this name already exists"), db)
          else if patch.name.isNone && patch.symbols.isNone then
            (.ok ⟨existing.oid, existing.name, existing.symbols, existing.user_id⟩, db)
          else
            let db2 := updateFirst (fun d => d.oid == watchlist_id)
              (fun d => { d with name := patch.name.getD d.name,
                                 symbols := patch.symbols.getD d.symbols }) db
            match db2.find? fun d => d.oid == watchlist_id with
            | some updated =>
              (.ok ⟨updated.oid, updated.name, updated.symbols, updated.user_id⟩, db2)
            | none => (.error (500, "Internal Server Error"), db2)

/-! ### Health check (src/main.py lines 283-290) -/

/-- The response body of GET /health. -/
structure HealthResponse where
  status : String
  database : String
deriving DecidableEq, Repr

/-- `health_check` of src/main.py: ping the store and report healthy, or
report unhealthy with the error message; the handler itself never raises. -/
def health_check (ping : Except String Unit) : HealthResponse :=
  match ping with
  | .ok _ => ⟨"healthy", "connected"⟩
  | .error e => ⟨"unhealthy", e⟩

/-! ### Shared helper lemmas -/

/-- When nothing in the front list matches, `find?` over an append searches
the back list. -/
theorem find?_append_of_none {p : α → Bool} {l1 : List α} (l2 : List α)
    (h : l1.find? p = none) : (l1 ++ l2).find? p = l2.find? p := by
  simp [List.find?_append, h]

/-- Updating the first match by a predicate-preserving function updates the
element `find?` returns. -/
theorem find?_updateFirst_of_found {p : α → Bool} {f : α → α} {l : List α}
    {w : α} (hw : l.find? p = some w) (hp : p (f w) = true) :
    (updateFirst p f l).find? p = some (f w) := by
  induction l with
  | nil => simp at hw
  | cons x xs ih =>
    by_cases hx : p x = true
    · rw [List.find?_cons_of_pos _ hx] at hw
      injection hw with hw
      subst hw
      simp [updateFirst, hx, List.find?_cons_of_pos _ hp]
    · rw [List.find?_cons_of_neg _ hx] at hw
      simp [updateFirst, hx, List.find?_cons_of_neg _ hx, ih hw]

/-! ### Claims about the request gate -/

/-- Claim C1, counterexample: with admin keys configured as
`"secret1,secret2"` (the key set `\x7b"secret1", "secret2"\x7d`), a request
whose `x-api-key` is the non-empty non-member value `"secret"` does not
fall through to the bearer path — the gate attaches the admin identity,
because the check is Python substring membership in the configuration
string, not membership in the key set. -/
theorem c1_counterexample :
    ("secret" ∈ adminKeySet "secret1,secret2" → False) ∧
    "secret" ≠ "" ∧
    validate_token_middleware ⟨"secret1,secret2", ⟨some 0, "admin"⟩⟩
        ⟨"/stocks/sync", some "secret", none⟩ .timeout
      = .forwarded (some ⟨some 0, "admin"⟩) :=
  ⟨by decide, by decide, by decide⟩

/-- Claim C1, amended: the admin bypass applies exactly to requests whose
non-empty `x-api-key` value occurs as a substring of the configured
`ADMIN_API_KEYS` string; for every such request the identity service is
never called and the attached identity equals the configured admin
payload, and for every request whose non-empty `x-api-key` value is not a
substring the gate falls through to the bearer-credential path. -/
theorem c1_admin_bypass_substring (cfg : GateConfig) (req : HttpRequest)
    (k : String)
    (hpath : authSkipPaths.contains req.path = false)
    (hk : req.xApiKey = some k) (hne : k ≠ "") :
    (strContains cfg.adminApiKeys k = true →
      (∀ svc, validate_token_middleware cfg req svc = .forwarded (some cfg.adminData)) ∧
      usesAuthService cfg req = false) ∧
    (strContains cfg.adminApiKeys k = false →
      ∀ svc, validate_token_middleware cfg req svc = bearerBranch req svc) := by
  have hb : adminBypass cfg req = strContains cfg.adminApiKeys k := by
    simp [adminBypass, hk, hne]
  have hpath2 : ¬ req.path ∈ authSkipPaths := by simpa using hpath
  refine ⟨fun hs => ⟨fun svc => ?_, ?_⟩, fun hs svc => ?_⟩
  · simp [validate_token_middleware, hpath2, hb, hs]
  · simp [usesAuthService, hpath, hb, hs]
  · simp [validate_token_middleware, hpath2, hb, hs]

/-- Claim C1, witness instantiation: an exact configured key is bypassed
with the admin payload attached and no remote call; a non-substring key
falls through to the bearer path. -/
theorem c1_witness :
    (∀ svc, validate_token_middleware ⟨"adminkey1", ⟨some 7, "a"⟩⟩
        ⟨"/stocks", some "adminkey1", none⟩ svc = .forwarded (some ⟨some 7, "a"⟩)) ∧
    usesAuthService ⟨"adminkey1", ⟨some 7, "a"⟩⟩ ⟨"/stocks", some "adminkey1", none⟩ = false ∧
    (∀ svc, validate_token_middleware ⟨"adminkey1", ⟨some 7, "a"⟩⟩
        ⟨"/stocks", some "other", none⟩ svc
      = bearerBranch ⟨"/stocks", some "other", none⟩ svc) := by
  have h1 := (c1_admin_bypass_substring ⟨"adminkey1", ⟨some 7, "a"⟩⟩
    ⟨"/stocks", some "adminkey1", none⟩ "adminkey1" (by decide) rfl (by decide)).1 (by decide)
  have h2 := (c1_admin_bypass_substring ⟨"adminkey1", ⟨some 7, "a"⟩⟩
    ⟨"/stocks", some "other", none⟩ "other" (by decide) rfl (by decide)).2 (by decide)
  exact ⟨h1.1, h1.2, h2⟩

/-- Claim C3: on a non-skipped path, a request with no admin bypass and no
`Authorization` header is rejected 401 with the missing-header detail, and
the identity service is never called. -/
theorem c3_unauthenticated_no_call (cfg : GateConfig) (req : HttpRequest)
    (svc : AuthServiceBehavior)
    (hpath : authSkipPaths.contains req.path = false)
    (hkey : adminBypass cfg req = false)
    (hauth : req.authorization = none) :
    validate_token_middleware cfg req svc = .rejected 401 "Authorization header missing" ∧
    usesAuthService cfg req = false := by
  have hpath2 : ¬ req.path ∈ authSkipPaths := by simpa using hpath
  constructor
  · simp [validate_token_middleware, hpath2, hkey, bearerBranch, hauth]
  · simp [usesAuthService, hpath, hkey, hauth]

/-- Claim C3, witness: a credential-less request to /watchlist is rejected
401 and no remote call is made. -/
theorem c3_witness :
    validate_token_middleware ⟨"k", ⟨some 0, ""⟩⟩ ⟨"/watchlist", none, none⟩ .timeout
      = .rejected 401 "Authorization header missing" ∧
    usesAuthService ⟨"k", ⟨some 0, ""⟩⟩ ⟨"/watchlist", none, none⟩ = false :=
  c3_unauthenticated_no_call _ _ _ (by decide) (by decide) rfl

/-- Claim C10, counterexample: a request to /health carrying neither an
admin key nor a bearer header is rejected 401 by the gate, not forwarded
to the health handler — only /docs, /openapi.json and /redoc bypass the
gate. -/
theorem c10_counterexample :
    validate_token_middleware ⟨"adminkey", ⟨none, "admin"⟩⟩ ⟨"/health", none, none⟩ .timeout
      = .rejected 401 "Authorization header missing" := by decide

/-- Claim C10, amended: /health is not on the gate allow-list — a request
to /health with neither admin key nor bearer header is rejected 401 and
never reaches the handler; the health handler itself, when invoked, always
returns a healthy or unhealthy status without raising. -/
theorem c10_health_gated (cfg : GateConfig) (svc : AuthServiceBehavior)
    (ping : Except String Unit) :
    validate_token_middleware cfg ⟨"/health", none, none⟩ svc
      = .rejected 401 "Authorization header missing" ∧
    ((health_check ping).status = "healthy" ∨ (health_check ping).status = "unhealthy") := by
  constructor
  · have hpath2 : ¬ "/health" ∈ authSkipPaths := by decide
    have hkey : adminBypass cfg ⟨"/health", none, none⟩ = false := rfl
    simp [validate_token_middleware, hpath2, hkey, bearerBranch]
  · cases ping <;> simp [health_check]

/-! ### Claims about the stock sync and list handlers -/

/-- Claim C4, evaluation at the failing input and at error inputs: a sync
whose provider returns zero bars leaves the handler as a 500 whose detail
is the stringified 404 exception (the explicit `HTTPException(404)` is
caught by the blanket `except Exception` clause), while provider and store
exceptions surface as 500 responses whose detail is the underlying error
message. -/
theorem c4_sync_error_paths :
    (sync_stock ⟨"AAPL", "5d"⟩ (.ok []) none []).1
      = .httpError 500 "404: Stock data not found" ∧
    (sync_stock ⟨"AAPL", "5d"⟩ (.error "provider boom") none []).1
      = .httpError 500 "provider boom" ∧
    (sync_stock ⟨"AAPL", "5d"⟩
        (.ok [⟨"2024-01-01", 1, 2, 1, 1, 5⟩, ⟨"2024-01-02", 1, 2, 1, 1, 5⟩])
        (some (1, "store boom")) []).1
      = .httpError 500 "store boom" :=
  ⟨by decide, by decide, by decide⟩

/-- A 25-row stock collection whose volumes are a permutation of 0..24. -/
def c5db : List StockRecord :=
  (List.range 25).map fun i => ⟨"AAPL", "2024-01-01", 1, 2, 1, 1, ((7 * i) % 25 : Nat)⟩

/-- Rows 11 through 20 of `c5db` in ascending volume order. -/
def c5pageTwo : List StockRecord :=
  (List.range 10).map fun j => ⟨"AAPL", "2024-01-01", 1, 2, 1, 1, (10 + j : Nat)⟩

/-- Claim C5, evaluation at the failing input: with 25 matching rows,
page 2 and page size 10, the query phase of the handler computes
`total = 25`, `total_pages = 3` and exactly rows 11 through 20 of the
ascending sort — as the claim states — but the handler then fails to
construct `StockListResponse` (its `data` field is declared as the
submodel `StockHistoryRecord` while a list is supplied) and the request
ends as a 500, not as the claimed success response. -/
theorem c5_pagination_then_500 :
    stocksPage none 2 10 "volume" "asc" c5db = (25, 3, c5pageTwo) ∧
    get_stocks none 2 10 "volume" "asc" c5db
      = .httpError 500 ("Error fetching stocks: " ++ pyDictError) :=
  ⟨by decide, by decide⟩

/-- Claim C6: every GET /stocks request that passes parameter validation
ends in the 500 error branch, because the handler supplies a list of
records for the `data` field that `StockListResponse` declares as the
single submodel `StockHistoryRecord`, and pydantic rejects the list. -/
theorem c6_list_response_model_mismatch (symbol : Option String)
    (page page_size : Nat) (sort_by sort_order : String) (db : List StockRecord)
    (_hp : 1 ≤ page) (_hps1 : 1 ≤ page_size) (_hps2 : page_size ≤ 5000)
    (hsb : valid_sort_fields.contains sort_by = true)
    (hso : (["asc", "desc"].contains sort_order) = true) :
    get_stocks symbol page page_size sort_by sort_order db
      = .httpError 500 ("Error fetching stocks: " ++ pyDictError) := by
  have hsb2 : sort_by ∈ valid_sort_fields := by simpa using hsb
  have hso2 : sort_order = "asc" ∨ sort_order = "desc" := by simpa using hso
  rcases hso2 with h | h <;> subst h <;>
    simp [get_stocks, hsb2, mkStockListResponse, parseStockHistoryRecord]

/-- Claim C6, witness: a default-parameter request over an empty collection
ends as the pydantic-mismatch 500. -/
theorem c6_witness :
    get_stocks none 1 10 "date" "desc" []
      = .httpError 500 ("Error fetching stocks: " ++ pyDictError) :=
  c6_list_response_model_mismatch none 1 10 "date" "desc" []
    (by decide) (by decide) (by decide) (by decide) (by decide)

/-- Claim C9: an invalid sort field is rejected 400 with the detail
enumerating the allowed fields, an invalid sort order is rejected 400 with
the detail enumerating asc and desc, and in both cases neither the count
query nor the page query is executed. -/
theorem c9_invalid_sort (symbol : Option String) (page page_size : Nat)
    (sort_by sort_order : String) (db : List StockRecord) :
    (valid_sort_fields.contains sort_by = false →
      get_stocks symbol page page_size sort_by sort_order db
        = .httpError 400 sortByErrorDetail ∧
      stocksQueryExecuted sort_by sort_order = false) ∧
    (valid_sort_fields.contains sort_by = true →
      (["asc", "desc"].contains sort_order) = false →
      get_stocks symbol page page_size sort_by sort_order db
        = .httpError 400 sortOrderErrorDetail ∧
      stocksQueryExecuted sort_by sort_order = false) := by
  constructor
  · intro h
    refine ⟨?_, by unfold stocksQueryExecuted; rw [h, Bool.false_and]⟩
    unfold get_stocks
    rw [if_pos h]
  · intro h1 h2
    refine ⟨?_, by unfold stocksQueryExecuted; rw [h2, Bool.and_false]⟩
    unfold get_stocks
    rw [if_neg (by rw [h1]; decide), if_pos h2]

/-- Claim C9, witness: `sort_by=bogus` and `sort_order=down` are each
rejected 400 with the enumerating details and no query execution. -/
theorem c9_witness :
    (get_stocks none 1 10 "bogus" "desc" [] = .httpError 400 sortByErrorDetail ∧
      stocksQueryExecuted "bogus" "desc" = false) ∧
    (get_stocks none 1 10 "date" "down" [] = .httpError 400 sortOrderErrorDetail ∧
      stocksQueryExecuted "date" "down" = false) :=
  ⟨(c9_invalid_sort none 1 10 "bogus" "desc" []).1 (by decide),
   (c9_invalid_sort none 1 10 "date" "down" []).2 (by decide) (by decide)⟩

/-! ### Behaviour lemmas for the create handler -/

/-- When the caller already owns a watchlist with the requested name, the
create handler rejects 400 and writes nothing. -/
theorem create_watchlist_conflict (uid : Int) (raw : String) (w : WatchlistCreate)
    (db : List WatchlistDoc) (newId : String) (d : WatchlistDoc)
    (hfind : db.find? (fun x => x.name == w.name && x.user_id == uid) = some d) :
    create_watchlist (some ⟨some uid, raw⟩) w db newId
      = (.error (400, "Watchlist with this name already exists"), db) := by
  unfold create_watchlist
  dsimp only
  rw [hfind]
  rfl

/-- When the caller owns no watchlist with the requested name, the create
handler inserts the new document and returns it with the generated id. -/
theorem create_watchlist_ok (uid : Int) (raw : String) (w : WatchlistCreate)
    (db : List WatchlistDoc) (newId : String)
    (hfind : db.find? (fun x => x.name == w.name && x.user_id == uid) = none) :
    create_watchlist (some ⟨some uid, raw⟩) w db newId
      = (.ok ⟨newId, w.name, w.symbols, uid⟩, db ++ [⟨newId, w.name, w.symbols, uid⟩]) := by
  unfold create_watchlist
  dsimp only
  rw [hfind]
  rfl

/-! ### Claims about the watchlist handlers -/

/-- Claim C2: for an authenticated caller, when no stored watchlist has
both the requested id and the caller as owner — whether the id is absent
altogether or present under a different owner — the update handler answers
with the one fixed 404 response, so the answer cannot reveal whether the
id exists under another owner. -/
theorem c2_notfound_collapse (u : UserData) (user_id : Int) (wid : String)
    (patch : WatchListUpdate) (db : List WatchlistDoc)
    (hu : u.id = some user_id)
    (hv : isValidObjectId wid = true)
    (hnone : ∀ d ∈ db, ¬ (d.oid = wid ∧ d.user_id = user_id)) :
    (update_watchlist (some u) wid patch db).1
      = .error (404, watchlistNotFoundDetail) := by
  have hfind : db.find? (fun d => d.oid == wid && d.user_id == user_id) = none := by
    rw [List.find?_eq_none]
    intro d hd
    simp only [Bool.and_eq_true, beq_iff_eq]
    exact fun hc => hnone d hd hc
  simp [update_watchlist, hu, hv, hfind]

/-- Claim C2, witness: a caller with id 1 patching an id that exists but is
owned by user 2 receives exactly the 404 response. -/
theorem c2_witness :
    (update_watchlist (some ⟨some 1, "u"⟩) "aaaaaaaaaaaaaaaaaaaaaaaa"
        ⟨some "x", none⟩ [⟨"aaaaaaaaaaaaaaaaaaaaaaaa", "w", [], 2⟩]).1
      = .error (404, watchlistNotFoundDetail) :=
  c2_notfound_collapse ⟨some 1, "u"⟩ 1 "aaaaaaaaaaaaaaaaaaaaaaaa"
    ⟨some "x", none⟩ [⟨"aaaaaaaaaaaaaaaaaaaaaaaa", "w", [], 2⟩]
    rfl (by decide) (by decide)

/-- Claim C7: starting from a store where nobody owns a watchlist named
`n`, a create by user A succeeds and returns the new watchlist with its
generated identifier; a second create by A with the same name fails 400
with the conflict detail; a create by a different user B with the same
name succeeds. -/
theorem c7_create_conflict (uA uB : Int) (rA rB n : String)
    (s1 s2 : List String) (db : List WatchlistDoc) (id1 id2 id3 : String)
    (hAB : uA ≠ uB)
    (hfresh : ∀ d ∈ db, d.name ≠ n) :
    (create_watchlist (some ⟨some uA, rA⟩) ⟨n, s1⟩ db id1).1 = .ok ⟨id1, n, s1, uA⟩ ∧
    (create_watchlist (some ⟨some uA, rA⟩) ⟨n, s2⟩
        (create_watchlist (some ⟨some uA, rA⟩) ⟨n, s1⟩ db id1).2 id2).1
      = .error (400, "Watchlist with this name already exists") ∧
    (create_watchlist (some ⟨some uB, rB⟩) ⟨n, s2⟩
        (create_watchlist (some ⟨some uA, rA⟩) ⟨n, s1⟩ db id1).2 id3).1
      = .ok ⟨id3, n, s2, uB⟩ := by
  have hA : db.find? (fun d => d.name == n && d.user_id == uA) = none := by
    rw [List.find?_eq_none]
    intro d hd
    simp only [Bool.and_eq_true, beq_iff_eq]
    exact fun hc => hfresh d hd hc.1
  have hB : db.find? (fun d => d.name == n && d.user_id == uB) = none := by
    rw [List.find?_eq_none]
    intro d hd
    simp only [Bool.and_eq_true, beq_iff_eq]
    exact fun hc => hfresh d hd hc.1
  have hstep := create_watchlist_ok uA rA ⟨n, s1⟩ db id1 hA
  refine ⟨by rw [hstep], ?_, ?_⟩
  · rw [hstep]
    have hfind : ((db ++ [({ oid := id1, name := n, symbols := s1, user_id := uA } : WatchlistDoc)]).find?
        (fun x => x.name == n && x.user_id == uA))
        = some { oid := id1, name := n, symbols := s1, user_id := uA } := by
      rw [find?_append_of_none _ hA, List.find?_cons_of_pos _ (by simp)]
    rw [create_watchlist_conflict uA rA ⟨n, s2⟩ _ id2 _ hfind]
  · rw [hstep]
    have hfind : ((db ++ [({ oid := id1, name := n, symbols := s1, user_id := uA } : WatchlistDoc)]).find?
        (fun x => x.name == n && x.user_id == uB)) = none := by
      rw [find?_append_of_none _ hB, List.find?_cons_of_neg _ (by simp [hAB])]
      rfl
    rw [create_watchlist_ok uB rB ⟨n, s2⟩ _ id3 hfind]

/-- Claim C7, witness: user 1 creates "tech", a duplicate create by user 1
fails 400, and user 2 creates "tech" successfully. -/
theorem c7_witness :
    (create_watchlist (some ⟨some 1, "ra"⟩) ⟨"tech", ["AAPL"]⟩ [] "id1").1
      = .ok ⟨"id1", "tech", ["AAPL"], 1⟩ ∧
    (create_watchlist (some ⟨some 1, "ra"⟩) ⟨"tech", ["TSLA"]⟩
        (create_watchlist (some ⟨some 1, "ra"⟩) ⟨"tech", ["AAPL"]⟩ [] "id1").2 "id2").1
      = .error (400, "Watchlist with this name already exists") ∧
    (create_watchlist (some ⟨some 2, "rb"⟩) ⟨"tech", ["TSLA"]⟩
        (create_watchlist (some ⟨some 1, "ra"⟩) ⟨"tech", ["AAPL"]⟩ [] "id1").2 "id3").1
      = .ok ⟨"id3", "tech", ["TSLA"], 2⟩ :=
  c7_create_conflict 1 2 "ra" "rb" "tech" ["AAPL"] ["TSLA"] [] "id1" "id2" "id3"
    (by decide) (by decide)

/-- Claim C8: for the owner of a found watchlist, an empty patch returns
the stored record unchanged and writes nothing to the store; a
symbols-only patch leaves the stored name untouched; a name-only patch
(with no rename conflict) leaves the stored symbols untouched. -/
theorem c8_partial_update_frame (u : UserData) (user_id : Int) (wid : String)
    (db : List WatchlistDoc) (w : WatchlistDoc)
    (hu : u.id = some user_id)
    (hv : isValidObjectId wid = true)
    (hown : db.find? (fun d => d.oid == wid && d.user_id == user_id) = some w)
    (hfst : db.find? (fun d => d.oid == wid) = some w) :
    update_watchlist (some u) wid ⟨none, none⟩ db
      = (.ok ⟨w.oid, w.name, w.symbols, w.user_id⟩, db) ∧
    (∀ s, (update_watchlist (some u) wid ⟨none, some s⟩ db).1
        = .ok ⟨w.oid, w.name, s, w.user_id⟩ ∧
      ((update_watchlist (some u) wid ⟨none, some s⟩ db).2).find?
          (fun d => d.oid == wid) = some { w with symbols := s }) ∧
    (∀ n, (n = w.name ∨
        db.find? (fun d => d.name == n && d.user_id == user_id) = none) →
      (update_watchlist (some u) wid ⟨some n, none⟩ db).1
        = .ok ⟨w.oid, n, w.symbols, w.user_id⟩ ∧
      ((update_watchlist (some u) wid ⟨some n, none⟩ db).2).find?
          (fun d => d.oid == wid) = some { w with name := n }) := by
  have hwp : (fun d => d.oid == wid) w = true := by
    have := List.find?_some hfst
    simpa using this
  refine ⟨?_, fun s => ?_, fun n hn => ?_⟩
  · simp [update_watchlist, hu, hv, hown]
  · have hupd := find?_updateFirst_of_found (f := fun d : WatchlistDoc =>
      { d with symbols := s }) hfst (by simpa using hwp)
    constructor
    · simp [update_watchlist, hu, hv, hown, hupd]
    · simp [update_watchlist, hu, hv, hown, hupd]
  · have hcond : ¬ (¬ n = w.name ∧ ∃ x ∈ db, x.name = n ∧ x.user_id = user_id) := by
      rcases hn with h | h
      · exact fun hc => hc.1 h
      · rintro ⟨-, x, hx, hx1, hx2⟩
        have hpx := List.find?_eq_none.mp h x hx
        simp [hx1, hx2] at hpx
    have hupd := find?_updateFirst_of_found (f := fun d : WatchlistDoc =>
      { d with name := n }) hfst (by simpa using hwp)
    constructor
    · simp [update_watchlist, hu, hv, hown, hcond, hupd]
    · simp [update_watchlist, hu, hv, hown, hcond, hupd]

/-- Claim C8, witness: on a one-watchlist store, the empty patch is a no-op
returning the stored record, a symbols-only patch keeps the name, and a
name-only patch keeps the symbols. -/
theorem c8_witness :
    update_watchlist (some ⟨some 1, "u"⟩) "aaaaaaaaaaaaaaaaaaaaaaaa" ⟨none, none⟩
        [⟨"aaaaaaaaaaaaaaaaaaaaaaaa", "tech", ["AAPL"], 1⟩]
      = (.ok ⟨"aaaaaaaaaaaaaaaaaaaaaaaa", "tech", ["AAPL"], 1⟩,
         [⟨"aaaaaaaaaaaaaaaaaaaaaaaa", "tech", ["AAPL"], 1⟩]) ∧
    ((update_watchlist (some ⟨some 1, "u"⟩) "aaaaaaaaaaaaaaaaaaaaaaaa"
        ⟨none, some ["TSLA"]⟩ [⟨"aaaaaaaaaaaaaaaaaaaaaaaa", "tech", ["AAPL"], 1⟩]).1
      = .ok ⟨"aaaaaaaaaaaaaaaaaaaaaaaa", "tech", ["TSLA"], 1⟩) ∧
    ((update_watchlist (some ⟨some 1, "u"⟩) "aaaaaaaaaaaaaaaaaaaaaaaa"
        ⟨some "growth", none⟩ [⟨"aaaaaaaaaaaaaaaaaaaaaaaa", "tech", ["AAPL"], 1⟩]).1
      = .ok ⟨"aaaaaaaaaaaaaaaaaaaaaaaa", "growth", ["AAPL"], 1⟩) := by
  have h := c8_partial_update_frame ⟨some 1, "u"⟩ 1 "aaaaaaaaaaaaaaaaaaaaaaaa"
    [⟨"aaaaaaaaaaaaaaaaaaaaaaaa", "tech", ["AAPL"], 1⟩]
    ⟨"aaaaaaaaaaaaaaaaaaaaaaaa", "tech", ["AAPL"], 1⟩
    rfl (by decide) (by decide) (by decide)
  exact ⟨h.1, (h.2.1 ["TSLA"]).1, (h.2.2 "growth" (Or.inr (by decide))).1⟩

end StockApi
